import Mathlib

/-!
# Verification of the AI-Product-Description-Writer batch pipeline

Shallow embedding of the repository's core code:

* `seo_utils.py` — `count_occurrences` (regex word-boundary keyword matching)
  and `analyze_seo` (metrics + suggestions);
* `generator.py` — `calculate_seo` (the substring-based analyzer actually used
  by `generate`), the fast-mode reduced report, `safe_json_load` (JSON repair)
  and `generate` itself, together with the import-time `FAST_MODE` global;
* `model_client.py` — the error wrapping performed by `call_llm` (an HTTP
  error is caught and re-raised as a plain `RuntimeError`);
* `batch_generate_v2.py` — `calc_backoff` and the per-item retry loop of
  `main` (resume skip, ledger accounting, 429 penalty state, cooldown).

Python strings are modelled as `List Char`; text processing is modelled at
ASCII granularity (`Char.toLower`, alphanumeric word characters), which is
exact for the ASCII inputs exercised here.  Python floats are modelled as
exact rationals; `round(x, 3)` is modelled as round-half-to-even at three
decimal places.  External boundaries (`json.loads`, the LLM transport) are
passed in as explicit function parameters.
-/

namespace PDG

/-- Python strings, modelled as lists of characters. -/
abbrev Str := List Char

/-- Python `str.lower()` (ASCII model). -/
def lowerStr (s : Str) : Str := s.map Char.toLower

/-- A regex `\w` word character: alphanumeric or underscore (ASCII model). -/
def isWordChar (c : Char) : Bool := c.isAlphanum || c = '_'

/-- Whitespace, for Python `str.strip()`. -/
def isSpaceChar (c : Char) : Bool := c.isWhitespace

/-- Python `str.strip()`: drop leading and trailing whitespace. -/
def strip (s : Str) : Str :=
  ((s.dropWhile isSpaceChar).reverse.dropWhile isSpaceChar).reverse

/-- Predicate `startsWith hay needle`: `needle` is a prefix of `hay`. -/
def startsWith : Str → Str → Bool
  | _, [] => true
  | [], _ :: _ => false
  | b :: bs, a :: as => (a = b) && startsWith bs as

/-- Python `needle in hay` for strings: substring containment. -/
def strContainsL (hay needle : Str) : Bool :=
  match hay with
  | [] => needle.isEmpty
  | _ :: rest => startsWith hay needle || strContainsL rest needle

/-- Scanning loop of Python `hay.count(needle)` for nonempty `needle`.
The first argument is fuel; each step consumes at least one character of the
haystack, so fuel `hay.length + 1` (as supplied by `strCount`) never runs
out before the scan finishes. -/
def strCountGo (needle : Str) : ℕ → Str → ℕ
  | 0, _ => 0
  | _ + 1, [] => 0
  | fuel + 1, hay@(_ :: rest) =>
    if startsWith hay needle then 1 + strCountGo needle fuel (hay.drop (max 1 needle.length))
    else strCountGo needle fuel rest

/-- Python `hay.count(needle)`: non-overlapping occurrence count, scanning
left to right (used by `calculate_seo` for its `keyword_density`).  An empty
needle is counted `len + 1` times, as in Python. -/
def strCount (hay needle : Str) : ℕ :=
  if needle.isEmpty then hay.length + 1
  else strCountGo needle (hay.length + 1) hay

/-- Whether position `i` of `hay` holds a word character (out of range: no). -/
def wordCharAt (hay : Str) (i : ℕ) : Bool :=
  match hay.drop i with
  | [] => false
  | c :: _ => isWordChar c

/-- Whether the character just before position `i` is a word character
(position 0 has no predecessor). -/
def wordBefore (hay : Str) (i : ℕ) : Bool :=
  if i = 0 then false else wordCharAt hay (i - 1)

/-- The regex word boundary `\b` holds at position `i`: exactly one of the
two characters flanking the position is a word character. -/
def boundaryAt (hay : Str) (i : ℕ) : Bool :=
  wordBefore hay i != wordCharAt hay i

/-- The literal `t` occurs at position `i` of `hay`. -/
def occursAt (hay t : Str) (i : ℕ) : Bool := startsWith (hay.drop i) t

/-- The regex `\b t \b` (with `t` a literal) matches at position `i`. -/
def matchAt (hay t : Str) (i : ℕ) : Bool :=
  occursAt hay t i && boundaryAt hay i && boundaryAt hay (i + t.length)

/-- The `re.findall` scan for `\b t \b` starting at position `i` of `hay`:
counts non-overlapping matches, resuming after each match.  The first
argument is fuel; the position advances by at least one per step, so fuel
`hay.length + 1` (as supplied by `count_occurrences`) never runs out before
the scan passes the end of the haystack. -/
def countMatchesGo (hay t : Str) : ℕ → ℕ → ℕ
  | 0, _ => 0
  | fuel + 1, i =>
    if i < hay.length then
      if matchAt hay t i then 1 + countMatchesGo hay t fuel (i + max 1 t.length)
      else countMatchesGo hay t fuel (i + 1)
    else 0

/-- Embedding of `seo_utils.count_occurrences` (lines 18–21): the number of matches of
`re.findall(r"\b" + re.escape(token) + r"\b", text.lower())`; returns 0 for
an empty text or token. -/
def count_occurrences (text token : Str) : ℕ :=
  if text.isEmpty || token.isEmpty then 0
  else countMatchesGo (lowerStr text) token ((lowerStr text).length + 1) 0

/-- Helper for `countWordRuns`: the boolean records whether the previous
character was a word character. -/
def countWordRunsAux : Str → Bool → ℕ
  | [], _ => 0
  | c :: rest, inWord =>
    if isWordChar c then (if inWord then 0 else 1) + countWordRunsAux rest true
    else countWordRunsAux rest false

/-- The count `len(re.findall(r"\w+", s))`: the number of maximal word-character runs
(the word count used by `analyze_seo`). -/
def countWordRuns (s : Str) : ℕ := countWordRunsAux s false

/-- Floor of a rational, computed directly on numerator and denominator so
that it evaluates by kernel reduction. -/
def ratFloor (q : ℚ) : ℤ := Int.fdiv q.num q.den

/-- Round-half-to-even to an integer (the semantics of Python `round`). -/
def roundHalfEven (q : ℚ) : ℤ :=
  let f := ratFloor q
  let r := q - f
  if r < 1/2 then f
  else if 1/2 < r then f + 1
  else if f % 2 = 0 then f else f + 1

/-- Python `round(x, 3)`: round-half-to-even at three decimal places. -/
def round3 (q : ℚ) : ℚ := (roundHalfEven (q * 1000) : ℚ) / 1000

/-! ## `seo_utils.analyze_seo` (lines 24–62)

The analyzer component of `seo_utils.py`.  Suggestion messages are modelled
as tagged variants carrying the interpolated data; no claim concerns the
literal English text of a suggestion. -/

/-- A suggestion emitted by `analyze_seo`, in emission order. -/
inductive SugA
  | titleTooLong
  | metaTooLong
  | kwMissingTitle (k : Str)
  | kwMissingMeta (k : Str)
  | kwMissingLong (k : Str)
  | kwStuffing (k : Str) (dens : ℚ)
deriving DecidableEq

/-- The `product_texts` argument of `analyze_seo`: the three analyzed
fields (a missing or `None` key reads as the empty string). -/
structure ProductTexts where
  title : Str
  meta_description : Str
  long_description : Str

/-- The return value of `analyze_seo`: the `metrics` dict (field per key)
plus `suggestions`.  Python dicts keyed by keyword are association lists in
keyword order. -/
structure AnalyzeReport where
  title_length : ℕ
  meta_length : ℕ
  title_has_primary : List (Str × Bool)
  meta_has_primary : List (Str × Bool)
  keyword_density : List (Str × ℚ)
  suggestions : List SugA

/-- Embedding of `seo_utils.analyze_seo` (lines 24–62), embedded line by line:
strip the three texts, lowercase the keywords, compute length metrics,
word-boundary presence flags, densities over `len(re.findall(r"\w+", long))
or 1`, then the suggestion list in source order. -/
def analyze_seo (pt : ProductTexts) (primary_keywords : List Str) : AnalyzeReport :=
  let title := strip pt.title
  let meta := strip pt.meta_description
  let long := strip pt.long_description
  let kws := primary_keywords.map lowerStr
  let thp := kws.map fun k => (k, decide (0 < count_occurrences title k))
  let mhp := kws.map fun k => (k, decide (0 < count_occurrences meta k))
  let long_words := let n := countWordRuns long; if n = 0 then 1 else n
  let kd := kws.map fun k =>
    (k, round3 (100 * (count_occurrences long k : ℚ) / (long_words : ℚ)))
  let sug :=
    (if 60 < title.length then [SugA.titleTooLong] else [])
    ++ (if 160 < meta.length then [SugA.metaTooLong] else [])
    ++ (thp.filterMap fun p => if p.2 then none else some (SugA.kwMissingTitle p.1))
    ++ (mhp.filterMap fun p => if p.2 then none else some (SugA.kwMissingMeta p.1))
    ++ (kd.filterMap fun p =>
         if p.2 = 0 then some (SugA.kwMissingLong p.1)
         else if 3 < p.2 then some (SugA.kwStuffing p.1 p.2) else none)
  { title_length := title.length
    meta_length := meta.length
    title_has_primary := thp
    meta_has_primary := mhp
    keyword_density := kd
    suggestions := sug }

/-! ## `generator.py`

`FAST_MODE` (line 9), `calculate_seo` (lines 43–77), `safe_json_load`
(lines 82–89) and `generate` (lines 94–124). -/

/-- The fields of the parsed generation result that the analyzed code reads
(`data.get("title", "")` etc.); a missing key reads as the default. -/
structure GenData where
  title : Str
  meta_description : Str
  short_description : Str
  long_description : Str
  keywords : List Str

/-- A suggestion emitted by `calculate_seo` (it only reports missing
keywords in title and meta). -/
inductive SugC
  | kwMissingTitle (k : Str)
  | kwMissingMeta (k : Str)
deriving DecidableEq

/-- The `metrics` dict built by `calculate_seo`: note that
`keyword_density` holds the raw `long_desc.count(k_low)` substring counts
(`ℕ`), not percentages. -/
structure CalcSeoMetrics where
  title_length : ℕ
  meta_length : ℕ
  title_has_primary : List (Str × Bool)
  meta_has_primary : List (Str × Bool)
  keyword_density : List (Str × ℕ)
deriving DecidableEq

/-- The return value of `generator.calculate_seo`. -/
structure CalcSeoReport where
  metrics : CalcSeoMetrics
  suggestions : List SugC
deriving DecidableEq

/-- Embedding of `generator.calculate_seo` (lines 43–77): for each keyword `kw`,
`title_has_primary[kw] = kw.lower() in title.lower()` (substring test),
likewise for meta, and `keyword_density[kw] =
long_description.lower().count(kw.lower())`; suggestions report keywords
missing from title, then keywords missing from meta. -/
def calculate_seo (data : GenData) : CalcSeoReport :=
  let title := data.title
  let meta := data.meta_description
  let keywords := data.keywords
  let long_desc := lowerStr data.long_description
  let thp := keywords.map fun kw => (kw, strContainsL (lowerStr title) (lowerStr kw))
  let mhp := keywords.map fun kw => (kw, strContainsL (lowerStr meta) (lowerStr kw))
  let kd := keywords.map fun kw => (kw, strCount long_desc (lowerStr kw))
  let sug :=
    (thp.filterMap fun p => if p.2 then none else some (SugC.kwMissingTitle p.1))
    ++ (mhp.filterMap fun p => if p.2 then none else some (SugC.kwMissingMeta p.1))
  { metrics :=
      { title_length := title.length
        meta_length := meta.length
        title_has_primary := thp
        meta_has_primary := mhp
        keyword_density := kd }
    suggestions := sug }

/-- Values stored in a metrics mapping, viewed uniformly (used to compare
the fast-mode metrics dict with the full-mode one key by key). -/
inductive MetricVal
  | nat (n : ℕ)
  | boolMap (m : List (Str × Bool))
  | natMap (m : List (Str × ℕ))
deriving DecidableEq

/-- The full-mode metrics dict of `calculate_seo` as a keyed association
list, in Python insertion order (lines 46–52). -/
def calcSeoMetricsKeyed (m : CalcSeoMetrics) : List (String × MetricVal) :=
  [("title_length", .nat m.title_length),
   ("meta_length", .nat m.meta_length),
   ("title_has_primary", .boolMap m.title_has_primary),
   ("meta_has_primary", .boolMap m.meta_has_primary),
   ("keyword_density", .natMap m.keyword_density)]

/-- The reduced SEO report built inline by `generate` when `FAST_MODE` is
set (lines 107–113): a metrics dict with exactly the keys `title_length`
and `meta_length`, and an empty suggestion list. -/
structure FastSeoReport where
  metrics : List (String × MetricVal)
  suggestions : List SugC
deriving DecidableEq

/-- The fast-mode report of `generate` (lines 107–113). -/
def fast_seo_report (data : GenData) : FastSeoReport :=
  { metrics :=
      [("title_length", .nat data.title.length),
       ("meta_length", .nat data.meta_description.length)]
    suggestions := [] }

/-- The error raised by Python's `json.loads` on invalid input
(`json.JSONDecodeError`): a message plus `doc`, the exact document string
that was being parsed. -/
structure JErr where
  msg : String
  doc : String
deriving DecidableEq

/-- The repair instruction built by `safe_json_load` (line 86):
`f"Fix this and return VALID JSON only:\n{raw_output}"`. -/
def fix_prompt (raw : String) : String :=
  "Fix this and return VALID JSON only:\n" ++ raw

/-- Embedding of `generator.safe_json_load` (lines 82–89).  `jsonLoads` is the external
`json.loads` boundary (deterministic; on failure its error carries the
parsed document), `llm` the `call_llm` boundary.  Returns the result
together with the list of repair prompts sent to the boundary, so that the
number of repair round-trips is observable.  The second `json.loads` call
is not guarded: its error propagates unchanged. -/
def safe_json_load {V : Type} (jsonLoads : String → Except JErr V)
    (llm : String → String) (raw : String) : Except JErr V × List String :=
  match jsonLoads raw with
  | .ok v => (.ok v, [])
  | .error _ =>
    let p := fix_prompt raw
    (jsonLoads (llm p), [p])

/-- The SEO report attached to a `generate` result: either the fast-mode
reduced report or the full `calculate_seo` report. -/
inductive SeoOut
  | fast (r : FastSeoReport)
  | full (r : CalcSeoReport)
deriving DecidableEq

/-- The `PROMPT.format(name=name, features=features)` request text (the
literal template content is irrelevant to every claim; it is a fixed
deterministic function of `name` and `features`). -/
def promptFor (name features : String) : String :=
  "Generate a detailed, SEO-optimized product description in valid JSON only. "
    ++ "Product Name: " ++ name ++ " Features: " ++ features

/-- Embedding of `generator.generate` (lines 94–124): query the LLM, parse the raw
output (retrying via `safe_json_load`, which performs at most one repair
round-trip), then attach either the fast-mode report or the full
`calculate_seo` report depending on the module-level `FAST_MODE` value. -/
def generate (fastMode : Bool) (llm : String → String)
    (jsonLoads : String → Except JErr GenData) (name features : String) :
    Except JErr (GenData × SeoOut) :=
  let raw := llm (promptFor name features)
  let parsed :=
    match jsonLoads raw with
    | .ok d => Except.ok d
    | .error _ => (safe_json_load jsonLoads llm raw).1
  match parsed with
  | .error e => .error e
  | .ok data =>
    .ok (data, if fastMode then .fast (fast_seo_report data) else .full (calculate_seo data))

/-! ### The import-time `FAST_MODE` global (line 9) and the batch runner's
environment mutation (`batch_generate_v2.py` lines 130–136).

Only the `PDG_FAST_MODE` environment variable matters; an environment is
modelled by its value (`none` = unset). -/

/-- The value of the `PDG_FAST_MODE` environment variable (`none`: unset). -/
abbrev EnvVar : Type := Option String

/-- The flag `FAST_MODE = os.getenv("PDG_FAST_MODE") == "1"` (generator.py
line 9), evaluated once when the module is imported, against the
import-time environment. -/
def moduleFastMode (importEnv : EnvVar) : Bool := importEnv == some "1"

/-- The batch runner's per-attempt environment mutation
(`batch_generate_v2.py` lines 130–136): with `--fast-mode` it sets
`PDG_FAST_MODE=1`, otherwise it pops the variable. -/
def setFastModeEnv (fastFlag : Bool) (_env : EnvVar) : EnvVar :=
  if fastFlag then some "1" else none

/-- One boundary call as performed inside the batch runner's retry loop
(`batch_generate_v2.py` lines 130–138): mutate the environment according to
the `--fast-mode` flag, then call `generate` — which branches on the
module-level `FAST_MODE` captured from the import-time environment, not on
the current environment.  Returns the call result and the mutated
environment. -/
def batchAttemptCall (importEnv : EnvVar) (env : EnvVar) (fastFlag : Bool)
    (llm : String → String) (jsonLoads : String → Except JErr GenData)
    (name features : String) : Except JErr (GenData × SeoOut) × EnvVar :=
  let env' := setFastModeEnv fastFlag env
  (generate (moduleFastMode importEnv) llm jsonLoads name features, env')

/-! ## Errors crossing the boundary into the batch runner

The runner's `except` block (`batch_generate_v2.py` lines 165–192) observes
of an exception: its message (`str(e)`), whether it is a
`requests.exceptions.HTTPError` with a non-`None` response, the response's
`Retry-After` header (if any, and whether `float()` accepts it) and the
response's status code. -/

/-- An exception as observed by the batch runner's retry loop.
`retryAfter = none`: no (truthy) `Retry-After` header; `some none`: header
present but not parseable by `float()`; `some (some r)`: numeric value. -/
structure GenError where
  msg : String
  isHTTP : Bool
  retryAfter : Option (Option ℚ)
  status : Option ℕ
deriving DecidableEq

/-- Embedding of `model_client.call_llm` (lines 32–38): when the HTTP response is an
error, the `HTTPError` raised by `raise_for_status()` is caught and a plain
`RuntimeError` with message `f"HTTP {status}: {text}"` is raised instead.
A `RuntimeError` is not a `requests` `HTTPError` and carries no response
object, so neither the status code nor any `Retry-After` header survives to
the caller, whatever `status` and `retryAfter` the HTTP response had. -/
def wrap_call_llm_failure (status : ℕ) (body : String)
    (_retryAfter : Option (Option ℚ)) : GenError :=
  { msg := "HTTP " ++ toString status ++ ": " ++ body
    isHTTP := false
    retryAfter := none
    status := none }

/-! ## `batch_generate_v2.py` — backoff and the per-item state machine -/

/-- The pre-jitter exponential delay `base * (2 ** attempt)`
(`batch_generate_v2.py` line 67, `expo`). -/
def expo_delay (base : ℚ) (attempt : ℕ) : ℚ := base * 2 ^ attempt

/-- Embedding of `calc_backoff` (lines 65–71).  The random draw
`random.uniform(-jitter_amt, jitter_amt)` is modelled by the normalized
parameter `u` (the draw is `jitter_amt * u`, with `u ∈ [-1, 1]` for a real
run; no claim needs the bound).  Result: `min(max(0.5, val), cap)`. -/
def calc_backoff (attempt : ℕ) (base cap jitter u : ℚ) : ℚ :=
  let expo := expo_delay base attempt
  let jitter_amt := expo * jitter
  let val := expo + jitter_amt * u
  min (max (1/2) val) cap

/-- The run configuration consumed by the retry loop (`args.*`).
`maxRetries` is `--max-retries` (default 5), `maxBackoff` is
`--max-backoff` (default 60.0), `backoffBase` is `--backoff-base`
(default 2.0), `delay` the base inter-call delay (default 1.0),
`delayIncreaseFactor` the growth factor on 429 (default 1.5). -/
structure Config where
  delay : ℚ
  maxRetries : ℕ
  maxBackoff : ℚ
  backoffBase : ℚ
  delayIncreaseFactor : ℚ

/-- One input row of the batch (a `WorkItem`). -/
structure Item where
  idx : ℕ
  name : String
  features : String
  category : String
  audience : String
  keywords : String
deriving DecidableEq

/-- An artifact file path.  `filename_base = f"{idx:03d}_{slug}_{short_hash}"`
(lines 113–117) where `slug` and `short_hash` are pure deterministic
functions of `name` resp. `name + features`; the path is therefore
determined by `(idx, name, features)` plus which of the two artifacts it
is, which is what this type records. -/
structure OutPath where
  idx : ℕ
  name : String
  features : String
  isSeo : Bool
deriving DecidableEq

/-- The description artifact path `descriptions/{filename_base}.json`. -/
def descFile (it : Item) : OutPath := ⟨it.idx, it.name, it.features, false⟩

/-- The SEO artifact path `seo_reports/{filename_base}_seo.json`. -/
def seoFile (it : Item) : OutPath := ⟨it.idx, it.name, it.features, true⟩

/-- The `status` column of a combined-ledger row. -/
inductive RowStatus
  | ok
  | failed
deriving DecidableEq

/-- The fields extracted from a successful `generate` result when building
the ledger row (the result dict is otherwise opaque to the runner). -/
structure GenResult where
  title : String
  meta_description : String
  short_description : String
deriving DecidableEq

/-- One appended row of `combined/combined.csv` (lines 143–158 for `OK`,
203–218 for `FAILED`).  `files` is `some (desc, seo)` for an `OK` row and
`none` for a `FAILED` row (whose file columns hold the literal `"FAILED"`). -/
structure Row where
  idx : ℕ
  name : String
  category : String
  audience : String
  keywords : String
  features : String
  files : Option (OutPath × OutPath)
  title : String
  metaDesc : String
  shortDesc : String
  status : RowStatus
  error : String
deriving DecidableEq

/-- The `OK` ledger row for item `it` with result `r` (lines 143–158). -/
def okRow (it : Item) (r : GenResult) : Row :=
  { idx := it.idx, name := it.name, category := it.category
    audience := it.audience, keywords := it.keywords, features := it.features
    files := some (descFile it, seoFile it)
    title := r.title, metaDesc := r.meta_description
    shortDesc := r.short_description
    status := .ok, error := "" }

/-- The `FAILED` ledger row for item `it` with last error `msg`
(lines 203–218); its `meta_description` column holds `f"ERROR: {msg}"`. -/
def failedRow (it : Item) (msg : String) : Row :=
  { idx := it.idx, name := it.name, category := it.category
    audience := it.audience, keywords := it.keywords, features := it.features
    files := none
    title := "", metaDesc := "ERROR: " ++ msg, shortDesc := ""
    status := .failed, error := msg }

/-- The observable state threaded through the batch run: the set of
artifact files on disk, the appended ledger rows, the two mutable
controller variables `base_delay` and `consecutive_429`, the chronological
trace of `time.sleep` durations, and the number of `generate` boundary
calls performed. -/
structure RunState where
  files : List OutPath
  ledger : List Row
  baseDelay : ℚ
  consec429 : ℕ
  sleeps : List ℚ
  boundaryCalls : ℕ

/-- The error classification applied at lines 176–190: the 429 branch fires
only for a `requests` `HTTPError` carrying a response whose status code is
429. -/
def classify429 (e : GenError) : Bool := e.isHTTP && e.status == some 429

/-- The wait computed for a failed attempt `a` (0-based, the pre-increment
`attempt`): the jittered exponential backoff of line 171, overridden at
lines 178–185 by `min(float(Retry-After) + 1.0, max_backoff)` when the
error is an `HTTPError` with response whose `Retry-After` header parses as
a float. -/
def attemptWait (cfg : Config) (a : ℕ) (u : ℚ) (e : GenError) : ℚ :=
  let w := calc_backoff a cfg.backoffBase cfg.maxBackoff (3/10) u
  if e.isHTTP then
    match e.retryAfter with
    | some (some r) => min (r + 1) cfg.maxBackoff
    | _ => w
  else w

/-- The 429 branch of the classification block (lines 186–190): when the
failure is a `requests` `HTTPError` with response status 429, increment
`consecutive_429` and multiply `base_delay` by `--delay-increase-factor`;
otherwise leave the state alone. -/
def failUpdate (cfg : Config) (e : GenError) (s : RunState) : RunState :=
  if classify429 e then
    { s with consec429 := s.consec429 + 1
             baseDelay := s.baseDelay * cfg.delayIncreaseFactor }
  else s

/-- The retry loop of `main` (lines 126–219) for one item.  `oracle a` is
the outcome of the `generate` boundary call on attempt `a` (0-based);
`u a` is the jitter draw of attempt `a`.  `fuel` is the number of retries
still allowed (`maxRetries - a`, so the loop guard `attempt <= maxRetries`
holds exactly when `fuel` has not run out).  On success: write both
artifacts, append the `OK` row, reset `consecutive_429`, sleep the current
`base_delay`.  On failure: classify (Retry-After override, 429 counter and
`base_delay` growth), then either sleep the wait and retry, or append the
`FAILED` row carrying the last error message and stop. -/
def retryLoop (cfg : Config) (oracle : ℕ → Except GenError GenResult)
    (u : ℕ → ℚ) (it : Item) : ℕ → ℕ → RunState → RunState
  | fuel, a, s =>
    let s0 : RunState := { s with boundaryCalls := s.boundaryCalls + 1 }
    match oracle a with
    | .ok r =>
      { s0 with
        files := s0.files ++ [descFile it, seoFile it]
        ledger := s0.ledger ++ [okRow it r]
        consec429 := 0
        sleeps := s0.sleeps ++ [s0.baseDelay] }
    | .error e =>
      let s1 : RunState := failUpdate cfg e s0
      match fuel with
      | 0 => { s1 with ledger := s1.ledger ++ [failedRow it e.msg] }
      | fuel' + 1 =>
        retryLoop cfg oracle u it fuel' (a + 1)
          { s1 with sleeps := s1.sleeps ++ [attemptWait cfg a (u a) e] }

/-- Processing of one item by `main` (lines 105–225): the resume check
(lines 119–122) skips the item entirely — no boundary call, no ledger row,
no state change — when both artifact files already exist; otherwise the
retry loop runs (up to `maxRetries + 1` attempts) and, if the run ends with
a positive `consecutive_429` counter, the extra cooldown sleep
`min(5 * consecutive_429, max_backoff)` of lines 221–225 is appended. -/
def processItem (cfg : Config) (oracle : ℕ → Except GenError GenResult)
    (u : ℕ → ℚ) (it : Item) (s : RunState) : RunState :=
  if descFile it ∈ s.files ∧ seoFile it ∈ s.files then s
  else
    let s' := retryLoop cfg oracle u it cfg.maxRetries 0 s
    if 0 < s'.consec429 then
      { s' with sleeps := s'.sleeps ++ [min (5 * (s'.consec429 : ℚ)) cfg.maxBackoff] }
    else s'

/-! ### Trace observables of the attempt oracle -/

/-- Whether a boundary-call outcome is a success. -/
def isOkB {ε α : Type} : Except ε α → Bool
  | .ok _ => true
  | .error _ => false

/-- The message of a failed boundary-call outcome. -/
def errMsg {α : Type} : Except GenError α → String
  | .ok _ => ""
  | .error e => e.msg

/-- Some attempt among `a, a+1, …, a+fuel` succeeds (the loop, started at
attempt `a` with `fuel` retries allowed, eventually reaches a success). -/
def succeedsWithin (oracle : ℕ → Except GenError GenResult) : ℕ → ℕ → Bool
  | a, 0 => isOkB (oracle a)
  | a, fuel + 1 =>
    match oracle a with
    | .ok _ => true
    | .error _ => succeedsWithin oracle (a + 1) fuel

/-- The number of failures classified as 429 among the attempts the loop
actually makes when started at attempt `a` with `fuel` retries allowed
(counting stops at the first success). -/
def fails429From (oracle : ℕ → Except GenError GenResult) : ℕ → ℕ → ℕ
  | a, 0 =>
    match oracle a with
    | .ok _ => 0
    | .error e => if classify429 e then 1 else 0
  | a, fuel + 1 =>
    match oracle a with
    | .ok _ => 0
    | .error e => (if classify429 e then 1 else 0) + fails429From oracle (a + 1) fuel

/-! ## Concrete fixtures used by witnesses and counterexamples -/

/-- A concrete configuration: the CLI defaults (`--delay 1 --max-retries 5
--max-backoff 60 --backoff-base 2 --delay-increase-factor 1.5`), except
where a theorem needs a smaller retry budget. -/
def cfgFix : Config := ⟨1, 1, 60, 2, 3/2⟩

/-- A concrete work item. -/
def itemFix : Item := ⟨0, "Trail Mug", "steel, 350ml", "kitchen", "hikers", "mug"⟩

/-- A run state in which both artifacts of `itemFix` already exist. -/
def stExists : RunState := ⟨[descFile itemFix, seoFile itemFix], [], 1, 0, [], 0⟩

/-- A run state with an empty output directory. -/
def stEmpty : RunState := ⟨[], [], 1, 0, [], 0⟩

/-- A non-HTTP boundary failure (e.g. the `RuntimeError` raised by
`call_llm`). -/
def errPlain : GenError := ⟨"boom", false, none, none⟩

/-- An `HTTPError` failure with status 429 and numeric `Retry-After: 7`. -/
def err429 : GenError := ⟨"429 Client Error", true, some (some 7), some 429⟩

/-- An oracle that fails on every attempt with a plain error. -/
def oracleFail : ℕ → Except GenError GenResult := fun _ => .error errPlain

/-- An oracle that fails on every attempt with a 429 error. -/
def oracle429 : ℕ → Except GenError GenResult := fun _ => .error err429

/-- A zero jitter draw for every attempt. -/
def uZero : ℕ → ℚ := fun _ => 0

/-- A `json.loads` boundary behavior that rejects every document; as the
real `json.loads`, its `JSONDecodeError` carries the document it was asked
to parse (`doc`), not any other text. -/
def jsonLoadsFailAll : String → Except JErr Unit := fun s => .error ⟨"Expecting value", s⟩

/-- A repair-call behavior returning a fixed, still-invalid response. -/
def llmStillBad : String → String := fun _ => "still not json"

/-- The keyword `"cat"` as a character list. -/
def catL : Str := ['c', 'a', 't']

/-- A parsed result whose title and long description are the single word
`"category"`, with keywords `["cat"]`. -/
def dataCategory : GenData :=
  ⟨"category".toList, [], [], "category".toList, ["cat".toList]⟩

/-- A parsed result whose long description is `"cat cat"`, with keywords
`["cat"]`. -/
def dataCatCat : GenData :=
  ⟨[], [], [], "cat cat".toList, ["cat".toList]⟩

/-- A configuration with the configurable growth factor `1/2` (and no
retries), under which the "inflated" base delay shrinks. -/
def cfgShrink : Config := ⟨1, 0, 60, 2, 1/2⟩

/-! ## Claim theorems -/

/-- C3 (confirmed).  For every `WorkItem` whose two artifact files both
already exist at the deterministically computed filename, the batch runner
performs zero boundary calls, appends zero ledger rows, and leaves all
state (files, ledger, controller variables, sleep trace) unchanged: the
resume check of `batch_generate_v2.py` lines 119–122 returns the state
untouched. -/
theorem resume_skip_is_noop (cfg : Config) (oracle : ℕ → Except GenError GenResult)
    (u : ℕ → ℚ) (it : Item) (s : RunState)
    (h : descFile it ∈ s.files ∧ seoFile it ∈ s.files) :
    processItem cfg oracle u it s = s := by
  unfold processItem
  rw [if_pos h]

/-- Witness for C3: a concrete item whose two artifacts exist is skipped
without any state change. -/
theorem resume_skip_is_noop_witness :
    processItem cfgFix oracleFail uZero itemFix stExists = stExists :=
  resume_skip_is_noop cfgFix oracleFail uZero itemFix stExists ⟨by decide, by decide⟩

/-- C10 (confirmed).  `FAST_MODE` is read from `PDG_FAST_MODE` once, at
module import time (generator.py line 9): a boundary call made inside the
batch runner's retry loop is `generate` at the import-time flag, whatever
the current environment and whatever mutation lines 130–136 of
`batch_generate_v2.py` apply to it, so any two calls within one process
produce identical outputs regardless of how the environment was set or
cleared between them. -/
theorem fast_mode_frozen_at_import (importEnv e1 e2 : EnvVar) (f1 f2 : Bool)
    (llm : String → String) (jsonLoads : String → Except JErr GenData)
    (name features : String) :
    (batchAttemptCall importEnv e1 f1 llm jsonLoads name features).1
      = generate (moduleFastMode importEnv) llm jsonLoads name features ∧
    (batchAttemptCall importEnv e1 f1 llm jsonLoads name features).1
      = (batchAttemptCall importEnv e2 f2 llm jsonLoads name features).1 :=
  ⟨rfl, rfl⟩

/-- C9 (confirmed).  In fast mode the report built by `generate`
(generator.py lines 107–113) has an empty suggestion list and a metrics
dict with exactly the keys `title_length` and `meta_length`; and viewed key
by key it is a sublist of the full-mode `calculate_seo` metrics dict with
identical values — a pure subset, never additive. -/
theorem fast_report_pure_subset (data : GenData) :
    (fast_seo_report data).suggestions = [] ∧
    (fast_seo_report data).metrics.map Prod.fst = ["title_length", "meta_length"] ∧
    List.Sublist (fast_seo_report data).metrics
      (calcSeoMetricsKeyed (calculate_seo data).metrics) :=
  ⟨rfl, rfl, List.Sublist.cons₂ _ (List.Sublist.cons₂ _ (List.nil_sublist _))⟩

/-- Counterexample for C5.  With a raw output `"not json"` that fails to
parse and a repair response `"still not json"` that also fails to parse,
`safe_json_load` (generator.py lines 82–89) propagates the second
`json.loads` error, whose document is the repaired response — the original
raw text `"not json"` is not preserved anywhere in the error. -/
theorem repair_error_forgets_raw_cex :
    (safe_json_load jsonLoadsFailAll llmStillBad "not json").1
      = .error ⟨"Expecting value", "still not json"⟩ ∧
    (safe_json_load jsonLoadsFailAll llmStillBad "not json").2
      = [fix_prompt "not json"] ∧
    ("still not json" : String) ≠ "not json" :=
  ⟨rfl, rfl, by decide⟩

/-- C5 (corrected).  For every raw output whose direct strict parse
fails, `safe_json_load` issues exactly one repair request (the prompt trace
is exactly `[fix_prompt raw]`) and returns the strict parse of the repaired
response verbatim: a second parse failure propagates as that parse's error
— which references the repaired response, not the original raw text — and
no further repair request is made. -/
theorem repair_single_roundtrip {V : Type} (jsonLoads : String → Except JErr V)
    (llm : String → String) (raw : String) (e : JErr)
    (h : jsonLoads raw = .error e) :
    safe_json_load jsonLoads llm raw
      = (jsonLoads (llm (fix_prompt raw)), [fix_prompt raw]) := by
  unfold safe_json_load
  rw [h]

/-- Witness for C5: the single-round-trip behavior at a concrete failing
input. -/
theorem repair_single_roundtrip_witness :
    safe_json_load jsonLoadsFailAll llmStillBad "bad input"
      = (jsonLoadsFailAll (llmStillBad (fix_prompt "bad input")), [fix_prompt "bad input"]) :=
  repair_single_roundtrip jsonLoadsFailAll llmStillBad "bad input"
    ⟨"Expecting value", "bad input"⟩ rfl

/-- Counterexample for C2.  The claim quantifies over *any* configured
base, cap and jitter fraction, but `calc_backoff` only clamps from above by
`cap`: with the configurable cap `1/4` the returned value is `1/4`, which
does not lie in `[0.5, cap]`; and with a negative configured base the
pre-jitter value `base * 2**attempt` is strictly decreasing in the
attempt. -/
theorem backoff_claim_cex :
    calc_backoff 0 2 (1/4) (3/10) 0 = 1/4 ∧ ¬ ((1/2 : ℚ) ≤ 1/4) ∧
    expo_delay (-1) 1 < expo_delay (-1) 0 := by
  refine ⟨?_, by norm_num, ?_⟩
  · simp only [calc_backoff, expo_delay]
    rw [show (2 : ℚ) * 2 ^ 0 + 2 * 2 ^ 0 * (3 / 10) * 0 = 2 by norm_num]
    rw [max_eq_right (by norm_num), min_eq_right (by norm_num)]
  · unfold expo_delay; norm_num

/-- C2 (corrected).  For every attempt and any jitter fraction and
jitter draw, provided the configured base is nonnegative and the configured
cap is at least 0.5 (both true of the defaults 2.0 and 60.0): the
pre-jitter value `base * 2**attempt` is monotonically non-decreasing in the
attempt, and the value `calc_backoff` returns after jitter and clamping
lies in `[0.5, cap]`. -/
theorem backoff_monotone_and_clamped (base cap jitter u : ℚ) (a b : ℕ)
    (hbase : 0 ≤ base) (hcap : 1/2 ≤ cap) (hab : a ≤ b) :
    expo_delay base a ≤ expo_delay base b ∧
    1/2 ≤ calc_backoff a base cap jitter u ∧
    calc_backoff a base cap jitter u ≤ cap := by
  refine ⟨?_, ?_, ?_⟩
  · unfold expo_delay
    exact mul_le_mul_of_nonneg_left (pow_le_pow_right₀ (by norm_num) hab) hbase
  · unfold calc_backoff
    exact le_min (le_max_left _ _) hcap
  · unfold calc_backoff
    exact min_le_right _ _

/-- Witness for C2: the defaults `base = 2`, `cap = 60`, `jitter = 0.3`
with a full positive jitter draw, attempts 1 ≤ 2. -/
theorem backoff_monotone_and_clamped_witness :
    expo_delay 2 1 ≤ expo_delay 2 2 ∧
    1/2 ≤ calc_backoff 1 2 60 (3/10) 1 ∧
    calc_backoff 1 2 60 (3/10) 1 ≤ 60 :=
  backoff_monotone_and_clamped 2 60 (3/10) 1 1 2 (by norm_num) (by norm_num)
    (by norm_num)

/-- C7 (code bug).  The batch runner's override logic does compute
`min(hint + 1, max_backoff)` for an `HTTPError` whose response carries a
numeric `Retry-After` hint (first conjunct — `batch_generate_v2.py` lines
174–185); but every failure produced by the boundary reaches the runner
through `model_client.call_llm` (lines 32–38), which catches the
`HTTPError` and re-raises a plain `RuntimeError`, so the error the runner
inspects is never an `HTTPError` and the wait is always the jittered
exponential backoff, whatever hint the HTTP response carried (second
conjunct).  At the concrete failing input — HTTP 429 with `Retry-After: 7`,
defaults `backoff-base 2`, `max-backoff 60`, attempt 0, zero jitter draw —
the code waits 2 s where the claim requires `min(7 + 1, 60) = 8` s. -/
theorem retry_after_hint_lost :
    (∀ (cfg : Config) (a : ℕ) (u' r : ℚ) (msg : String) (st : Option ℕ),
      attemptWait cfg a u' ⟨msg, true, some (some r), st⟩
        = min (r + 1) cfg.maxBackoff) ∧
    (∀ (cfg : Config) (a : ℕ) (u' : ℚ) (status : ℕ) (body : String)
        (ra : Option (Option ℚ)),
      attemptWait cfg a u' (wrap_call_llm_failure status body ra)
        = calc_backoff a cfg.backoffBase cfg.maxBackoff (3/10) u') ∧
    attemptWait cfgFix 0 0 (wrap_call_llm_failure 429 "Too Many Requests" (some (some 7)))
      = 2 ∧
    min ((7 : ℚ) + 1) cfgFix.maxBackoff = 8 ∧ (2 : ℚ) ≠ 8 := by
  refine ⟨fun _ _ _ _ _ _ => rfl, fun _ _ _ _ _ _ => rfl, ?_, ?_, by norm_num⟩
  · show calc_backoff 0 cfgFix.backoffBase cfgFix.maxBackoff (3/10) 0 = 2
    simp only [calc_backoff, expo_delay, cfgFix]
    rw [show (2 : ℚ) * 2 ^ 0 + 2 * 2 ^ 0 * (3 / 10) * 0 = 2 by norm_num]
    rw [max_eq_right (by norm_num), min_eq_left (by norm_num)]
  · show min ((7 : ℚ) + 1) 60 = 8
    norm_num

/-! ## Word-boundary matching lemmas (for C1/C8) -/

theorem startsWith_cons {l : Str} {a : Char} {as : Str}
    (h : startsWith l (a :: as) = true) :
    ∃ l', l = a :: l' ∧ startsWith l' as = true := by
  cases l with
  | nil => exact absurd h (by simp [startsWith])
  | cons b bs =>
    unfold startsWith at h
    rw [Bool.and_eq_true] at h
    obtain ⟨h1, h2⟩ := h
    have hab : a = b := of_decide_eq_true h1
    exact ⟨bs, by rw [hab], h2⟩

theorem occursAt_cons_lt {hay : Str} {c : Char} {cs : Str} {j : ℕ}
    (h : occursAt hay (c :: cs) j = true) : j < hay.length := by
  by_contra hle
  have hnil : hay.drop j = [] := List.drop_eq_nil_of_le (by omega)
  unfold occursAt at h
  rw [hnil] at h
  exact absurd h (by simp [startsWith])

/-- If `"cat"` occurs at position `i`, positions `i` and `i + 2` hold word
characters (namely `'c'` and `'t'`). -/
theorem cat_occurs_word_flanks {hay : Str} {i : ℕ}
    (h : occursAt hay catL i = true) :
    wordCharAt hay i = true ∧ wordCharAt hay (i + 2) = true := by
  unfold occursAt catL at h
  obtain ⟨l1, h1, h'⟩ := startsWith_cons h
  obtain ⟨l2, h2, h''⟩ := startsWith_cons h'
  obtain ⟨l3, h3, _⟩ := startsWith_cons h''
  constructor
  · unfold wordCharAt
    rw [h1]
    rfl
  · unfold wordCharAt
    have hdrop : hay.drop (i + 2) = 't' :: l3 := by
      have : hay.drop (i + 2) = (hay.drop i).drop 2 := by
        rw [List.drop_drop]
      rw [this, h1, h2, h3]
      rfl
    rw [hdrop]
    rfl

/-- An occurrence of `"cat"` that is flanked by a word character on either
side (i.e. sits inside a longer word) is not a `\b cat \b` regex match. -/
theorem cat_flanked_no_match {hay : Str} {i : ℕ}
    (hfl : occursAt hay catL i = true →
      (wordBefore hay i || wordCharAt hay (i + 3)) = true) :
    matchAt hay catL i = false := by
  cases hocc : occursAt hay catL i with
  | false => simp [matchAt, hocc]
  | true =>
    obtain ⟨hw0, hw2⟩ := cat_occurs_word_flanks hocc
    rcases (by simpa using hfl hocc :
      wordBefore hay i = true ∨ wordCharAt hay (i + 3) = true) with hb | hb
    · simp [matchAt, boundaryAt, hb, hw0]
    · have hwb : wordBefore hay (i + 3) = true := by
        unfold wordBefore
        rw [if_neg (by omega)]
        simpa using hw2
      simp [matchAt, boundaryAt, catL, hwb, hb]

/-- If no position of the haystack is a regex match, the findall scan
counts zero matches, for any fuel and start position. -/
theorem countMatchesGo_zero {hay t : Str}
    (h : ∀ j, matchAt hay t j = false) :
    ∀ fuel i, countMatchesGo hay t fuel i = 0 := by
  intro fuel
  induction fuel with
  | zero => intro i; rfl
  | succ n ih =>
    intro i
    simp [countMatchesGo, h, ih]

/-- Counterexample for C1.  In the analyzer that `generate` actually runs
(`generator.calculate_seo`, substring matching), the keyword `"cat"` *does*
match inside the text `"category"`: the title-presence flag is `true` and
the density count is 1, where the claim requires a match count of 0 for
every analyzed field. -/
theorem seo_matching_substring_cex :
    (calculate_seo dataCategory).metrics.title_has_primary = [(catL, true)] ∧
    (calculate_seo dataCategory).metrics.keyword_density = [(catL, 1)] := by
  constructor <;> decide

/-- C1 (corrected).  `seo_utils.count_occurrences` — the matcher of the
`seo_utils` analyzer `analyze_seo` — is case-insensitive and whole-word:
for any text in which `"cat"` occurs only flanked by word characters (i.e.
only inside a longer word), the match count is 0, while `"Cat food"` counts
one occurrence.  But `generator.calculate_seo`, the analyzer `generate`
actually uses, matches substrings: keyword `"cat"` is reported present in
the title `"category"`. -/
theorem cat_word_boundary_matching :
    (∀ text : Str,
      (∀ i, i ≤ (lowerStr text).length → occursAt (lowerStr text) catL i = true →
        (wordBefore (lowerStr text) i || wordCharAt (lowerStr text) (i + 3)) = true) →
      count_occurrences text catL = 0) ∧
    count_occurrences "Cat food".toList catL = 1 ∧
    (calculate_seo dataCategory).metrics.title_has_primary = [(catL, true)] := by
  refine ⟨?_, by decide, by decide⟩
  intro text h
  unfold count_occurrences
  cases he : text.isEmpty with
  | true => rfl
  | false =>
    show countMatchesGo (lowerStr text) catL ((lowerStr text).length + 1) 0 = 0
    apply countMatchesGo_zero
    intro j
    apply cat_flanked_no_match
    intro hocc
    exact h j (le_of_lt (occursAt_cons_lt hocc)) hocc

/-- Witness for C1: in `"category"` the keyword `"cat"` occurs only inside
a longer word, and `count_occurrences` indeed counts 0. -/
theorem cat_word_boundary_matching_witness :
    count_occurrences "category".toList catL = 0 :=
  cat_word_boundary_matching.1 "category".toList (by decide)

/-- Counterexample for C8.  For long description `"cat cat"` and keyword
`"cat"`, the report produced by the analyzer `generate` runs
(`calculate_seo`) stores `keyword_density["cat"] = 2` — the raw substring
count — while the claimed formula `100 × occurrences / max(1, wordCount)`
rounded to 3 decimals gives `100.0`. -/
theorem density_formula_cex :
    (calculate_seo dataCatCat).metrics.keyword_density = [(catL, 2)] ∧
    round3 (100 * (count_occurrences "cat cat".toList catL : ℚ)
      / ((max 1 (countWordRuns "cat cat".toList) : ℕ) : ℚ)) = 100 ∧
    ((2 : ℚ) ≠ 100) := by
  refine ⟨by decide, ?_, by norm_num⟩
  rw [show count_occurrences "cat cat".toList catL = 2 by decide,
    show countWordRuns "cat cat".toList = 2 by decide]
  norm_num
  unfold round3 roundHalfEven ratFloor
  norm_num

/-- C8 (corrected).  In `seo_utils.analyze_seo`, `keyword_density[k]`
equals `100 × occurrences(k, long_description) / max(1, wordCount)` rounded
to 3 decimal places, and the divisor is at least 1 (an empty description is
floored to 1), so the computation never divides by zero.  But the report
built by the `generate` pipeline (`generator.calculate_seo`) instead stores
the raw substring count of the keyword in the lowercased long description —
no percentage, no word count, no rounding. -/
theorem analyze_density_formula :
    (∀ (pt : ProductTexts) (kws : List Str),
      (analyze_seo pt kws).keyword_density
        = (kws.map lowerStr).map (fun k =>
            (k, round3 (100 * (count_occurrences (strip pt.long_description) k : ℚ)
              / ((max 1 (countWordRuns (strip pt.long_description)) : ℕ) : ℚ)))) ∧
      0 < max 1 (countWordRuns (strip pt.long_description))) ∧
    (∀ data : GenData,
      (calculate_seo data).metrics.keyword_density
        = data.keywords.map fun kw => (kw, strCount (lowerStr data.long_description) (lowerStr kw))) := by
  refine ⟨fun pt kws => ⟨?_, lt_of_lt_of_le one_pos (Nat.le_max_left 1 _)⟩, fun _ => rfl⟩
  have hmax : ∀ n : ℕ, (if n = 0 then 1 else n) = max 1 n := by
    intro n
    cases n with
    | zero => rfl
    | succ m => rw [if_neg (by omega), Nat.max_eq_right (by omega)]
  simp only [analyze_seo, hmax]
/-! ## Retry-loop invariants (for C4/C6)

One-step unfolding lemmas for the recursive functions (plain `rw` with the
attempt outcome), then the loop invariants by induction on the fuel. -/

@[simp] theorem failUpdate_ledger (cfg : Config) (e : GenError) (s : RunState) :
    (failUpdate cfg e s).ledger = s.ledger := by
  unfold failUpdate; split <;> rfl

@[simp] theorem failUpdate_sleeps (cfg : Config) (e : GenError) (s : RunState) :
    (failUpdate cfg e s).sleeps = s.sleeps := by
  unfold failUpdate; split <;> rfl

@[simp] theorem failUpdate_files (cfg : Config) (e : GenError) (s : RunState) :
    (failUpdate cfg e s).files = s.files := by
  unfold failUpdate; split <;> rfl

theorem failUpdate_baseDelay (cfg : Config) (e : GenError) (s : RunState) :
    (failUpdate cfg e s).baseDelay
      = s.baseDelay * cfg.delayIncreaseFactor ^ (if classify429 e then 1 else 0) := by
  unfold failUpdate
  cases hc : classify429 e <;> simp

theorem failUpdate_consec429 (cfg : Config) (e : GenError) (s : RunState) :
    (failUpdate cfg e s).consec429
      = s.consec429 + (if classify429 e then 1 else 0) := by
  unfold failUpdate
  cases hc : classify429 e <;> simp

theorem succeedsWithin_ok {oracle : ℕ → Except GenError GenResult} {a : ℕ}
    {r : GenResult} (ho : oracle a = .ok r) (fuel : ℕ) :
    succeedsWithin oracle a fuel = true := by
  cases fuel with
  | zero => show isOkB (oracle a) = true; rw [ho]; rfl
  | succ n => rw [succeedsWithin, ho]

theorem succeedsWithin_err0 {oracle : ℕ → Except GenError GenResult} {a : ℕ}
    {e : GenError} (ho : oracle a = .error e) :
    succeedsWithin oracle a 0 = false := by
  show isOkB (oracle a) = false
  rw [ho]
  rfl

theorem succeedsWithin_errS {oracle : ℕ → Except GenError GenResult} {a : ℕ}
    {e : GenError} (ho : oracle a = .error e) (n : ℕ) :
    succeedsWithin oracle a (n + 1) = succeedsWithin oracle (a + 1) n := by
  rw [succeedsWithin, ho]

theorem fails429From_ok {oracle : ℕ → Except GenError GenResult} {a : ℕ}
    {r : GenResult} (ho : oracle a = .ok r) (fuel : ℕ) :
    fails429From oracle a fuel = 0 := by
  cases fuel with
  | zero => rw [fails429From, ho]
  | succ n => rw [fails429From, ho]

theorem fails429From_err0 {oracle : ℕ → Except GenError GenResult} {a : ℕ}
    {e : GenError} (ho : oracle a = .error e) :
    fails429From oracle a 0 = if classify429 e then 1 else 0 := by
  rw [fails429From, ho]

theorem fails429From_errS {oracle : ℕ → Except GenError GenResult} {a : ℕ}
    {e : GenError} (ho : oracle a = .error e) (n : ℕ) :
    fails429From oracle a (n + 1)
      = (if classify429 e then 1 else 0) + fails429From oracle (a + 1) n := by
  rw [fails429From, ho]

theorem retryLoop_ok (cfg : Config) {oracle : ℕ → Except GenError GenResult}
    (u : ℕ → ℚ) (it : Item) (fuel : ℕ) {a : ℕ} (s : RunState) {r : GenResult}
    (ho : oracle a = .ok r) :
    retryLoop cfg oracle u it fuel a s =
      ⟨s.files ++ [descFile it, seoFile it], s.ledger ++ [okRow it r],
       s.baseDelay, 0, s.sleeps ++ [s.baseDelay], s.boundaryCalls + 1⟩ := by
  rw [retryLoop, ho]

theorem retryLoop_err0 (cfg : Config) {oracle : ℕ → Except GenError GenResult}
    (u : ℕ → ℚ) (it : Item) {a : ℕ} (s : RunState) {e : GenError}
    (ho : oracle a = .error e) :
    retryLoop cfg oracle u it 0 a s =
      { failUpdate cfg e { s with boundaryCalls := s.boundaryCalls + 1 } with
        ledger := (failUpdate cfg e { s with boundaryCalls := s.boundaryCalls + 1 }).ledger
          ++ [failedRow it e.msg] } := by
  rw [retryLoop, ho]

theorem retryLoop_errS (cfg : Config) {oracle : ℕ → Except GenError GenResult}
    (u : ℕ → ℚ) (it : Item) (n : ℕ) {a : ℕ} (s : RunState) {e : GenError}
    (ho : oracle a = .error e) :
    retryLoop cfg oracle u it (n + 1) a s =
      retryLoop cfg oracle u it n (a + 1)
        { failUpdate cfg e { s with boundaryCalls := s.boundaryCalls + 1 } with
          sleeps := (failUpdate cfg e { s with boundaryCalls := s.boundaryCalls + 1 }).sleeps
            ++ [attemptWait cfg a (u a) e] } := by
  rw [retryLoop, ho]

/-- Lemma: `succeedsWithin` is the bounded existence of a successful attempt. -/
theorem succeedsWithin_iff (oracle : ℕ → Except GenError GenResult) :
    ∀ (fuel a : ℕ),
      succeedsWithin oracle a fuel = true
        ↔ ∃ j, j ≤ fuel ∧ isOkB (oracle (a + j)) = true := by
  intro fuel
  induction fuel with
  | zero =>
    intro a
    cases ho : oracle a with
    | ok r =>
      rw [succeedsWithin_ok ho]
      constructor
      · intro _; exact ⟨0, le_refl 0, by rw [Nat.add_zero, ho]; rfl⟩
      · intro _; rfl
    | error e =>
      rw [succeedsWithin_err0 ho]
      constructor
      · intro h; exact absurd h (by simp)
      · rintro ⟨j, hj, hok⟩
        have hj0 : j = 0 := by omega
        subst hj0
        rw [Nat.add_zero, ho] at hok
        exact absurd hok (by simp [isOkB])
  | succ n ih =>
    intro a
    cases ho : oracle a with
    | ok r =>
      rw [succeedsWithin_ok ho]
      constructor
      · intro _; exact ⟨0, by omega, by rw [Nat.add_zero, ho]; rfl⟩
      · intro _; rfl
    | error e =>
      rw [succeedsWithin_errS ho, ih (a + 1)]
      constructor
      · rintro ⟨j, hj, hok⟩
        exact ⟨j + 1, by omega, by rw [show a + (j + 1) = a + 1 + j by omega]; exact hok⟩
      · rintro ⟨j, hj, hok⟩
        cases j with
        | zero =>
          rw [Nat.add_zero, ho] at hok
          exact absurd hok (by simp [isOkB])
        | succ m =>
          exact ⟨m, by omega, by rw [show a + 1 + m = a + (m + 1) by omega]; exact hok⟩

/-- The retry loop appends exactly one ledger row: an `OK` row when some
allowed attempt succeeds, else a `FAILED` row carrying the message of the
final attempt's error. -/
theorem retryLoop_ledger (cfg : Config) (oracle : ℕ → Except GenError GenResult)
    (u : ℕ → ℚ) (it : Item) :
    ∀ (fuel a : ℕ) (s : RunState), ∃ row : Row,
      (retryLoop cfg oracle u it fuel a s).ledger = s.ledger ++ [row] ∧
      (succeedsWithin oracle a fuel = true → row.status = RowStatus.ok) ∧
      (succeedsWithin oracle a fuel = false →
        row.status = RowStatus.failed ∧ row.error = errMsg (oracle (a + fuel))) := by
  intro fuel
  induction fuel with
  | zero =>
    intro a s
    cases ho : oracle a with
    | ok r =>
      refine ⟨okRow it r, by rw [retryLoop_ok cfg u it 0 s ho], fun _ => rfl, fun hf => ?_⟩
      rw [succeedsWithin_ok ho] at hf
      exact absurd hf (by simp)
    | error e =>
      refine ⟨failedRow it e.msg, ?_, fun hs => ?_, fun _ => ⟨rfl, ?_⟩⟩
      · rw [retryLoop_err0 cfg u it s ho]
        simp
      · rw [succeedsWithin_err0 ho] at hs
        exact absurd hs (by simp)
      · rw [Nat.add_zero, ho]; rfl
  | succ n ih =>
    intro a s
    cases ho : oracle a with
    | ok r =>
      refine ⟨okRow it r, by rw [retryLoop_ok cfg u it (n + 1) s ho], fun _ => rfl, fun hf => ?_⟩
      rw [succeedsWithin_ok ho] at hf
      exact absurd hf (by simp)
    | error e =>
      obtain ⟨row, h1, h2, h3⟩ :=
        ih (a + 1)
          { failUpdate cfg e { s with boundaryCalls := s.boundaryCalls + 1 } with
            sleeps := (failUpdate cfg e { s with boundaryCalls := s.boundaryCalls + 1 }).sleeps
              ++ [attemptWait cfg a (u a) e] }
      refine ⟨row, ?_, ?_, ?_⟩
      · rw [retryLoop_errS cfg u it n s ho, h1]
        simp
      · intro hs
        rw [succeedsWithin_errS ho] at hs
        exact h2 hs
      · intro hf
        rw [succeedsWithin_errS ho] at hf
        obtain ⟨hst, herr⟩ := h3 hf
        exact ⟨hst, by rw [herr, show a + 1 + n = a + (n + 1) by omega]⟩

/-- Across the retry loop, `base_delay` is multiplied by the growth factor
exactly once per 429-classified failure among the attempts made. -/
theorem retryLoop_baseDelay (cfg : Config) (oracle : ℕ → Except GenError GenResult)
    (u : ℕ → ℚ) (it : Item) :
    ∀ (fuel a : ℕ) (s : RunState),
      (retryLoop cfg oracle u it fuel a s).baseDelay
        = s.baseDelay * cfg.delayIncreaseFactor ^ fails429From oracle a fuel := by
  intro fuel
  induction fuel with
  | zero =>
    intro a s
    cases ho : oracle a with
    | ok r =>
      rw [retryLoop_ok cfg u it 0 s ho, fails429From_ok ho]
      simp
    | error e =>
      rw [retryLoop_err0 cfg u it s ho, fails429From_err0 ho]
      show (failUpdate cfg e { s with boundaryCalls := s.boundaryCalls + 1 }).baseDelay
        = s.baseDelay * cfg.delayIncreaseFactor ^ (if classify429 e then 1 else 0)
      rw [failUpdate_baseDelay]
  | succ n ih =>
    intro a s
    cases ho : oracle a with
    | ok r =>
      rw [retryLoop_ok cfg u it (n + 1) s ho, fails429From_ok ho]
      simp
    | error e =>
      rw [retryLoop_errS cfg u it n s ho, ih (a + 1), fails429From_errS ho]
      show (failUpdate cfg e { s with boundaryCalls := s.boundaryCalls + 1 }).baseDelay
          * cfg.delayIncreaseFactor ^ fails429From oracle (a + 1) n
        = s.baseDelay * cfg.delayIncreaseFactor
            ^ ((if classify429 e then 1 else 0) + fails429From oracle (a + 1) n)
      rw [failUpdate_baseDelay, pow_add, mul_assoc]

/-- Across the retry loop, `consecutive_429` ends at zero when some allowed
attempt succeeds, and otherwise grows by one per 429-classified failure. -/
theorem retryLoop_consec429 (cfg : Config) (oracle : ℕ → Except GenError GenResult)
    (u : ℕ → ℚ) (it : Item) :
    ∀ (fuel a : ℕ) (s : RunState),
      (retryLoop cfg oracle u it fuel a s).consec429
        = if succeedsWithin oracle a fuel = true then 0
          else s.consec429 + fails429From oracle a fuel := by
  intro fuel
  induction fuel with
  | zero =>
    intro a s
    cases ho : oracle a with
    | ok r =>
      rw [retryLoop_ok cfg u it 0 s ho, succeedsWithin_ok ho]
      rfl
    | error e =>
      rw [retryLoop_err0 cfg u it s ho, succeedsWithin_err0 ho, fails429From_err0 ho]
      simp [failUpdate_consec429]
  | succ n ih =>
    intro a s
    cases ho : oracle a with
    | ok r =>
      rw [retryLoop_ok cfg u it (n + 1) s ho, succeedsWithin_ok ho]
      rfl
    | error e =>
      rw [retryLoop_errS cfg u it n s ho, ih (a + 1), succeedsWithin_errS ho,
        fails429From_errS ho]
      cases hs : succeedsWithin oracle (a + 1) n with
      | true => simp [hs]
      | false =>
        simp [hs, failUpdate_consec429]
        omega

/-- For a non-skipped item, `processItem` is the retry loop followed by the
conditional cooldown sleep, which only touches the sleep trace. -/
theorem processItem_not_skipped (cfg : Config) (oracle : ℕ → Except GenError GenResult)
    (u : ℕ → ℚ) (it : Item) (s : RunState)
    (hns : ¬(descFile it ∈ s.files ∧ seoFile it ∈ s.files)) :
    (processItem cfg oracle u it s).ledger
        = (retryLoop cfg oracle u it cfg.maxRetries 0 s).ledger ∧
    (processItem cfg oracle u it s).baseDelay
        = (retryLoop cfg oracle u it cfg.maxRetries 0 s).baseDelay ∧
    (processItem cfg oracle u it s).consec429
        = (retryLoop cfg oracle u it cfg.maxRetries 0 s).consec429 ∧
    (processItem cfg oracle u it s).sleeps
        = (if 0 < (retryLoop cfg oracle u it cfg.maxRetries 0 s).consec429 then
            (retryLoop cfg oracle u it cfg.maxRetries 0 s).sleeps
              ++ [min (5 * ((retryLoop cfg oracle u it cfg.maxRetries 0 s).consec429 : ℚ))
                    cfg.maxBackoff]
          else (retryLoop cfg oracle u it cfg.maxRetries 0 s).sleeps) := by
  unfold processItem
  rw [if_neg hns]
  by_cases hc : 0 < (retryLoop cfg oracle u it cfg.maxRetries 0 s).consec429
  · rw [if_pos hc, if_pos hc]
    exact ⟨rfl, rfl, rfl, rfl⟩
  · rw [if_neg hc, if_neg hc]
    exact ⟨rfl, rfl, rfl, rfl⟩

/-- C4 (confirmed).  Every processed (non-skipped) item appends exactly
one ledger row — never zero, never more: an `OK` row if some of the
`maxRetries + 1` allowed attempts succeeds, else a `FAILED` row carrying
the message of the last attempt's error. -/
theorem one_ledger_row_per_processed_item (cfg : Config)
    (oracle : ℕ → Except GenError GenResult) (u : ℕ → ℚ) (it : Item) (s : RunState)
    (hns : ¬(descFile it ∈ s.files ∧ seoFile it ∈ s.files)) :
    ∃ row : Row,
      (processItem cfg oracle u it s).ledger = s.ledger ++ [row] ∧
      ((∃ a, a ≤ cfg.maxRetries ∧ isOkB (oracle a) = true) → row.status = RowStatus.ok) ∧
      ((∀ a, a ≤ cfg.maxRetries → isOkB (oracle a) = false) →
        row.status = RowStatus.failed ∧ row.error = errMsg (oracle cfg.maxRetries)) := by
  obtain ⟨row, h1, h2, h3⟩ := retryLoop_ledger cfg oracle u it cfg.maxRetries 0 s
  refine ⟨row, ?_, ?_, ?_⟩
  · rw [(processItem_not_skipped cfg oracle u it s hns).1, h1]
  · rintro ⟨a, ha, hok⟩
    apply h2
    rw [succeedsWithin_iff]
    exact ⟨a, ha, by simpa using hok⟩
  · intro hall
    have hsf : succeedsWithin oracle 0 cfg.maxRetries = false := by
      cases hs : succeedsWithin oracle 0 cfg.maxRetries with
      | false => rfl
      | true =>
        obtain ⟨j, hj, hok⟩ := (succeedsWithin_iff oracle cfg.maxRetries 0).mp hs
        rw [Nat.zero_add] at hok
        rw [hall j hj] at hok
        exact absurd hok (by simp)
    obtain ⟨hst, herr⟩ := h3 hsf
    exact ⟨hst, by rw [herr, Nat.zero_add]⟩

/-- Witness for C4: with a one-retry budget and an oracle failing every
attempt, processing a fresh item appends exactly one row, `FAILED` with the
last error message. -/
theorem one_ledger_row_witness :
    ∃ row : Row,
      (processItem cfgFix oracleFail uZero itemFix stEmpty).ledger
        = stEmpty.ledger ++ [row] ∧
      ((∃ a, a ≤ cfgFix.maxRetries ∧ isOkB (oracleFail a) = true) →
        row.status = RowStatus.ok) ∧
      ((∀ a, a ≤ cfgFix.maxRetries → isOkB (oracleFail a) = false) →
        row.status = RowStatus.failed ∧ row.error = errMsg (oracleFail cfgFix.maxRetries)) :=
  one_ledger_row_per_processed_item cfgFix oracleFail uZero itemFix stEmpty (by decide)

/-- Counterexample for C6.  The claim asserts the inflated base delay never
decreases for the remainder of the run, for the configured growth factor;
but with `--delay-increase-factor 0.5` a single 429-classified failure
multiplies `base_delay` by `1/2`: it drops from 1 to 1/2. -/
theorem penalty_growth_cex :
    (processItem cfgShrink oracle429 uZero itemFix stEmpty).baseDelay = 1/2 ∧
    stEmpty.baseDelay = 1 ∧ ¬ ((1 : ℚ) ≤ 1/2) := by
  refine ⟨?_, rfl, by norm_num⟩
  rw [(processItem_not_skipped cfgShrink oracle429 uZero itemFix stEmpty (by decide)).2.1]
  rw [retryLoop_baseDelay]
  rw [show fails429From oracle429 0 cfgShrink.maxRetries = 1 from by decide]
  show stEmpty.baseDelay * cfgShrink.delayIncreaseFactor ^ 1 = 1/2
  norm_num [stEmpty, cfgShrink]

/-- C6 (corrected).  Across the retry loop of one processed item,
provided the configured growth factor is at least 1 and the current base
delay is nonnegative (both true of the defaults 1.5 and 1.0):
the penalty counter `consecutive_429` is incremented exactly on
429-classified failures — the final base delay is the initial one
multiplied by the growth factor once per such failure; the counter is reset
to zero whenever an attempt succeeds, and otherwise grows by exactly the
number of 429-classified failures; the base delay never decreases across
the item; and an extra cooldown sleep of
`min(5 × consecutive_429, max_backoff)` is appended after the loop exactly
when the counter is positive. -/
theorem rate_limit_penalty_adaptation (cfg : Config)
    (oracle : ℕ → Except GenError GenResult) (u : ℕ → ℚ) (it : Item) (s : RunState)
    (hf : 1 ≤ cfg.delayIncreaseFactor) (hb : 0 ≤ s.baseDelay)
    (hns : ¬(descFile it ∈ s.files ∧ seoFile it ∈ s.files)) :
    (retryLoop cfg oracle u it cfg.maxRetries 0 s).baseDelay
        = s.baseDelay * cfg.delayIncreaseFactor ^ fails429From oracle 0 cfg.maxRetries ∧
    ((∃ a, a ≤ cfg.maxRetries ∧ isOkB (oracle a) = true) →
        (retryLoop cfg oracle u it cfg.maxRetries 0 s).consec429 = 0) ∧
    ((∀ a, a ≤ cfg.maxRetries → isOkB (oracle a) = false) →
        (retryLoop cfg oracle u it cfg.maxRetries 0 s).consec429
          = s.consec429 + fails429From oracle 0 cfg.maxRetries) ∧
    s.baseDelay ≤ (processItem cfg oracle u it s).baseDelay ∧
    (processItem cfg oracle u it s).sleeps
      = (if 0 < (retryLoop cfg oracle u it cfg.maxRetries 0 s).consec429 then
          (retryLoop cfg oracle u it cfg.maxRetries 0 s).sleeps
            ++ [min (5 * ((retryLoop cfg oracle u it cfg.maxRetries 0 s).consec429 : ℚ))
                  cfg.maxBackoff]
        else (retryLoop cfg oracle u it cfg.maxRetries 0 s).sleeps) := by
  refine ⟨retryLoop_baseDelay cfg oracle u it cfg.maxRetries 0 s, ?_, ?_, ?_, ?_⟩
  · rintro ⟨a, ha, hok⟩
    rw [retryLoop_consec429]
    rw [if_pos ((succeedsWithin_iff oracle cfg.maxRetries 0).mpr ⟨a, ha, by simpa using hok⟩)]
  · intro hall
    rw [retryLoop_consec429]
    rw [if_neg ?hneg]
    case hneg =>
      intro hs
      obtain ⟨j, hj, hok⟩ := (succeedsWithin_iff oracle cfg.maxRetries 0).mp hs
      rw [Nat.zero_add, hall j hj] at hok
      exact absurd hok (by simp)
  · rw [(processItem_not_skipped cfg oracle u it s hns).2.1, retryLoop_baseDelay]
    exact le_mul_of_one_le_right hb (one_le_pow₀ hf)
  · exact (processItem_not_skipped cfg oracle u it s hns).2.2.2

/-- Witness for C6: every attempt fails with a 429 under a one-retry
budget: the base delay is inflated by the factor twice, the counter ends at
`consecutive_429 = 0 + 2`, and the cooldown sleep is appended. -/
theorem rate_limit_penalty_adaptation_witness :
    (retryLoop cfgFix oracle429 uZero itemFix cfgFix.maxRetries 0 stEmpty).baseDelay
        = stEmpty.baseDelay
          * cfgFix.delayIncreaseFactor ^ fails429From oracle429 0 cfgFix.maxRetries ∧
    ((∃ a, a ≤ cfgFix.maxRetries ∧ isOkB (oracle429 a) = true) →
        (retryLoop cfgFix oracle429 uZero itemFix cfgFix.maxRetries 0 stEmpty).consec429 = 0) ∧
    ((∀ a, a ≤ cfgFix.maxRetries → isOkB (oracle429 a) = false) →
        (retryLoop cfgFix oracle429 uZero itemFix cfgFix.maxRetries 0 stEmpty).consec429
          = stEmpty.consec429 + fails429From oracle429 0 cfgFix.maxRetries) ∧
    stEmpty.baseDelay ≤ (processItem cfgFix oracle429 uZero itemFix stEmpty).baseDelay ∧
    (processItem cfgFix oracle429 uZero itemFix stEmpty).sleeps
      = (if 0 < (retryLoop cfgFix oracle429 uZero itemFix cfgFix.maxRetries 0 stEmpty).consec429 then
          (retryLoop cfgFix oracle429 uZero itemFix cfgFix.maxRetries 0 stEmpty).sleeps
            ++ [min (5 * ((retryLoop cfgFix oracle429 uZero itemFix cfgFix.maxRetries 0 stEmpty).consec429 : ℚ))
                  cfgFix.maxBackoff]
        else (retryLoop cfgFix oracle429 uZero itemFix cfgFix.maxRetries 0 stEmpty).sleeps) :=
  rate_limit_penalty_adaptation cfgFix oracle429 uZero itemFix stEmpty
    (by norm_num [cfgFix]) (by norm_num [stEmpty]) (by decide)

end PDG
